/-
Verification of the ResearchCollab client core: a shallow embedding of the
session store (contexts/AuthContext.tsx), the notification center
(contexts/NotificationCenterContext.tsx), the realtime chat merge handler
(pages/ProjectDetailsViewerPage.tsx) and the toast notifier
(NotificationProvider / Toast component), together with proofs and
refutations of the stated behavioural properties.

Modelling conventions: the JavaScript code is single-threaded and
event-loop cooperative, so each handler is embedded as a pure state
transformer; the outcome of each awaited network call is passed in as an
explicit argument (the collaborator's reply), and interleavings across
await points are modelled by explicit step traces.  Nullable values become
Option, JS record types keep only the fields the embedded logic reads.
-/
import Mathlib

namespace ResearchCollab

/-! ## Notification center (contexts/NotificationCenterContext.tsx)

`AppNotification` keeps the two fields the context logic reads: `id`
(deduplication key) and `is_read` (unread bookkeeping). -/

structure AppNotification where
  id : String
  is_read : Bool
  deriving Repr, DecidableEq

/-- State of `NotificationCenterProvider`: the five `useState` cells. -/
structure NotifState where
  notifications : List AppNotification
  unreadCount : Nat
  isLoading : Bool
  currentPage : Nat
  hasMore : Bool
  deriving Repr, DecidableEq

/-- Reply of `getAppNotificationsForUser(page, limit)`: either an error
(also covering a thrown exception, handled identically by the catch
block) or `{data, count}`.  `count` is nullable. -/
inductive FetchReply where
  | fail : FetchReply
  | ok (data : List AppNotification) (count : Option Nat) : FetchReply
  deriving Repr, DecidableEq

/-- The JS guard `count ? totalFetched < count : true`: `count` equal to
`null`/`undefined`/`0` is falsy and yields `true`. -/
def countGuard (count : Option Nat) (totalFetched : Nat) : Bool :=
  match count with
  | none => true
  | some c => if c ≠ 0 then decide (totalFetched < c) else true

/-- The filter `newNotifications.filter(n => !existingIds.has(n.id))`
used when merging a page beyond the first. -/
def freshRows (prev newNotifications : List AppNotification) : List AppNotification :=
  newNotifications.filter (fun n => !(prev.any (fun m => m.id = n.id)))

/-- `fetchNotifications(pageToFetch, limit)` sequentialised: `hasUser` is
the `user` null-check, `reply` the awaited query result, `unreadReply` the
result of the trailing `refreshUnreadCount` (`none` = error, count kept). -/
def fetchNotifications (pageToFetch limit : Nat) (hasUser : Bool)
    (reply : FetchReply) (unreadReply : Option Nat) (s : NotifState) : NotifState :=
  if !hasUser then
    { s with notifications := [], hasMore := false,
             currentPage := if pageToFetch = 1 then 1 else s.currentPage }
  else
    match reply with
    | .fail =>
      { s with notifications := if pageToFetch = 1 then [] else s.notifications,
               hasMore := false, isLoading := false }
    | .ok data count =>
      let newNotifications := data
      let merged :=
        if pageToFetch = 1 then newNotifications
        else s.notifications ++ freshRows s.notifications newNotifications
      let totalFetched :=
        if pageToFetch = 1 then newNotifications.length
        else s.notifications.length + (freshRows s.notifications newNotifications).length
      let unread' := match unreadReply with
        | some c => c
        | none => s.unreadCount
      { notifications := merged,
        unreadCount := unread',
        isLoading := false,
        currentPage := pageToFetch,
        hasMore := newNotifications.length = limit && countGuard count totalFetched }

/-- `originalNotifications.find(n => n.id === notificationId && !n.is_read)`
is truthy. -/
def previouslyUnread (notificationId : String) (l : List AppNotification) : Bool :=
  l.any (fun n => n.id = notificationId && !n.is_read)

/-- The optimistic phase of `handleMarkAsRead`: flip the target's flag and
decrement the counter floored at zero (`Math.max(0, prev - 1)`). -/
def markAsReadOptimistic (notificationId : String) (s : NotifState) : NotifState :=
  { s with
    notifications := s.notifications.map
      (fun n => if n.id = notificationId then { n with is_read := true } else n),
    unreadCount := if previouslyUnread notificationId s.notifications
                   then s.unreadCount - 1 else s.unreadCount }

/-- `handleMarkAsRead(notificationId)` sequentialised: `serverOk` is
whether `markNotificationAsRead` succeeded (an error reply and a thrown
exception take the same rollback branch). -/
def handleMarkAsRead (notificationId : String) (serverOk : Bool) (s : NotifState) : NotifState :=
  let originalNotifications := s.notifications
  let wasUnread := previouslyUnread notificationId s.notifications
  let s1 := markAsReadOptimistic notificationId s
  if serverOk then s1
  else
    { s1 with notifications := originalNotifications,
              unreadCount := if wasUnread then s1.unreadCount + 1 else s1.unreadCount }

/-! ## Session store (contexts/AuthContext.tsx)

A Supabase `Session` always carries its authenticated user, so
`newSession?.user` is non-null exactly when `newSession` is; the embedded
session keeps the user id. -/

structure Session where
  userId : String
  deriving Repr, DecidableEq

/-- `UserRole` from types.ts. -/
inductive UserRole where
  | researchLead
  | contributor
  | admin
  deriving Repr, DecidableEq

/-- The profile row cached by the store; the fields the store logic
touches (`user.id`, `user.role`) plus the row identity for the
replace-with-server-row claims. -/
structure UserProfile where
  id : String
  name : String
  institution : String
  role : UserRole
  is_anonymous : Bool
  deriving Repr, DecidableEq

/-- The four `useState`/`useRef` cells of `AuthProvider`. -/
structure AuthState where
  session : Option Session
  user : Option UserProfile
  loading : Bool
  isSigningOut : Bool
  deriving Repr, DecidableEq

/-- The store before any event: `session = null`, `user = null`,
`loading = true`, `isSigningOutRef.current = false`. -/
def initAuthState : AuthState :=
  { session := none, user := none, loading := true, isSigningOut := false }

/-- The event kinds delivered to `onAuthStateChange`. -/
inductive AuthEvent where
  | initialSession
  | signedIn
  | signedOut
  | tokenRefreshed
  | passwordRecovery
  deriving Repr, DecidableEq

/-- The `onAuthStateChange` handler, sequentialised.  `profile` is the
awaited result of `fetchUserProfile(newSession.user)` (that function
returns `null` both on a query error and on a thrown exception, so a
failed fetch is `none`).  The trailing `loading` check reads the stale
closure value of `loading`, which is the initial `true`, so on the three
listed events `setLoading(false)` always runs. -/
def onAuthStateChange (ev : AuthEvent) (newSession : Option Session)
    (profile : Option UserProfile) (s : AuthState) : AuthState :=
  if s.isSigningOut && ev = .signedIn && newSession.isSome then
    s
  else
    let s1 := if s.isSigningOut && ev = .signedOut
              then { s with isSigningOut := false } else s
    let s2 := { s1 with session := newSession }
    let s3 := if newSession.isSome
              then { s2 with user := profile }
              else { s2 with user := none }
    if ev = .initialSession || ev = .signedIn || ev = .signedOut
    then { s3 with loading := false } else s3

/-- Outcome of the awaited `supabase.auth.signOut()` call: resolved with
no error, resolved with an error, or rejected (caught by the catch
block). -/
inductive SignOutOutcome where
  | ok
  | err
  | threw
  deriving Repr, DecidableEq

/-- The synchronous prefix of `signOut` up to the await:
`isSigningOutRef.current = true; setLoading(true)`. -/
def signOutBegin (s : AuthState) : AuthState :=
  { s with isSigningOut := true, loading := true }

/-- The rest of `signOut` after the await resumes: every branch clears
`user` and `session`, and the finally block resets the flag and
`loading`.  There is no further suspension point, so this is one step. -/
def signOutFinish (o : SignOutOutcome) (s : AuthState) : AuthState :=
  let s1 := match o with
    | .ok => { s with user := none, session := none }
    | .err => { s with user := none, session := none }
    | .threw => { s with user := none, session := none }
  { s1 with isSigningOut := false, loading := false }

/-- A whole `signOut` call with no event interleaved inside the await. -/
def signOut (o : SignOutOutcome) (s : AuthState) : AuthState :=
  signOutFinish o (signOutBegin s)

/-- One scheduler step of the session store: either half of a `signOut`
call, or a delivery of the auth subscription handler. -/
inductive AuthStep where
  | beginSignOut
  | finishSignOut (o : SignOutOutcome)
  | event (ev : AuthEvent) (newSession : Option Session) (profile : Option UserProfile)
  deriving Repr, DecidableEq

def applyAuthStep (s : AuthState) : AuthStep → AuthState
  | .beginSignOut => signOutBegin s
  | .finishSignOut o => signOutFinish o s
  | .event ev ns p => onAuthStateChange ev ns p s

def runAuth (s : AuthState) (steps : List AuthStep) : AuthState :=
  steps.foldl applyAuthStep s

/-- A sign-out has started and its matching signed-out event has not yet
been observed at the end of the given step sequence (the claim's
"sign-out window"). -/
def signOutPending (steps : List AuthStep) : Bool :=
  steps.foldl
    (fun pending step =>
      match step with
      | .beginSignOut => true
      | .event .signedOut _ _ => false
      | _ => pending)
    false

/-! ### Sign-up (domain validation and metadata) -/

/-- The suffix of a character list after its last occurrence of the at
sign; the whole list when it does not occur. -/
def afterLastAt : List Char → List Char
  | [] => []
  | c :: cs =>
    if cs.contains '@' then afterLastAt cs
    else if c = '@' then cs
    else c :: cs

/-- `email.substring(email.lastIndexOf('@') + 1)`: the suffix after the
last at sign, the whole string when there is none
(`lastIndexOf` returns -1 and `substring(0)` is the whole string). -/
def emailDomain (email : String) : String :=
  ⟨afterLastAt email.data⟩

/-- `validateUniversityEmail`, parametrised by the configured allow-list
`UNIVERSITY_EMAIL_DOMAINS`. -/
def validateUniversityEmail (domains : List String) (email : String) : Bool :=
  if domains.length = 0 || (domains.length = 1 && domains.headI = "") then true
  else domains.contains (emailDomain email)

/-- The caller-supplied arguments of `signUp` that the embedded logic
reads (`password_hash` and `profile_photo_url` flow through opaquely). -/
structure SignUpParams where
  email : String
  name : String
  institution : String
  role : UserRole
  is_anonymous : Option Bool
  deriving Repr, DecidableEq

/-- The `options.data` metadata object passed to `supabase.auth.signUp`. -/
structure SignUpMetadata where
  name : String
  institution : String
  role : UserRole
  is_anonymous : Bool
  deriving Repr, DecidableEq

/-- Builds `options.data`: the anonymity flag is
`params.role === UserRole.RESEARCH_LEAD ? (params.is_anonymous || false) : false`. -/
def signUpMetadata (p : SignUpParams) : SignUpMetadata :=
  { name := p.name,
    institution := p.institution,
    role := p.role,
    is_anonymous := match p.role with
      | .researchLead => p.is_anonymous.getD false
      | _ => false }

/-- Reply of the awaited `supabase.auth.signUp` call. -/
inductive AuthSignUpReply where
  | err
  | ok (user : Option String) (session : Option Session)
  | threw
  deriving Repr, DecidableEq

/-- What `signUp` reports back / leaves behind, beyond the store state:
whether the auth collaborator was invoked and with which metadata, and
whether an error object was returned to the caller. -/
structure SignUpOutcome where
  invokedWith : Option SignUpMetadata
  error : Bool
  deriving Repr, DecidableEq

/-- `signUp`, sequentialised.  The domain check happens before
`setLoading(true)` and before any network call; on rejection the function
returns an error object at once. -/
def signUp (domains : List String) (p : SignUpParams)
    (reply : AuthSignUpReply) (s : AuthState) : AuthState × SignUpOutcome :=
  if !validateUniversityEmail domains p.email then
    (s, { invokedWith := none, error := true })
  else
    let meta := signUpMetadata p
    let s1 := { s with loading := true }
    match reply with
    | .err => ({ s1 with loading := false }, { invokedWith := some meta, error := true })
    | .threw => ({ s1 with loading := false }, { invokedWith := some meta, error := true })
    | .ok user session =>
      match user with
      | none => ({ s1 with loading := false }, { invokedWith := some meta, error := true })
      | some _ =>
        match session with
        | none => ({ s1 with loading := false }, { invokedWith := some meta, error := false })
        | some newSession =>
          ({ s1 with session := some newSession, loading := false },
           { invokedWith := some meta, error := false })

/-! ### Profile update -/

/-- Reply of the awaited profile-row update: the returned row (nullable)
and the returned error; a thrown exception is reported as an error with
no row. -/
structure UpdateReply where
  data : Option UserProfile
  error : Bool
  deriving Repr, DecidableEq

/-- `updateUserProfile(updates)`: aborts when no user is cached, replaces
the cached profile with the returned row only when the call succeeded and
returned data, and hands `{data, error}` back to the caller. -/
def updateUserProfile (reply : UpdateReply) (s : AuthState) :
    AuthState × (Option UserProfile × Bool) :=
  match s.user with
  | none => (s, (none, true))
  | some _ =>
    let s1 := { s with loading := true }
    let s2 := if !reply.error then
                match reply.data with
                | some row => { s1 with user := some row }
                | none => s1
              else s1
    ({ s2 with loading := false }, (reply.data, reply.error))

/-! ## Realtime merge layer (pages/ProjectDetailsViewerPage.tsx)

The per-project chat channel's INSERT handler. -/

/-- The joined sender columns `users(id, name, profile_photo_url)`. -/
structure SenderProfile where
  id : String
  name : String
  profile_photo_url : Option String
  deriving Repr, DecidableEq

/-- A chat message row as held in the `messages` state; `sender_user` is
the hydrated join, absent on a raw realtime payload. -/
structure Message where
  id : String
  sender_user_id : String
  message_text : String
  sender_user : Option SenderProfile
  deriving Repr, DecidableEq

/-- Reply of the secondary sender lookup
`supabase.from('users').select(...).eq('id', ...).single()`: an error, or
a (nullable) row — `senderData || undefined` maps a null row to an absent
`sender_user`. -/
inductive SenderLookup where
  | fail
  | ok (data : Option SenderProfile)
  deriving Repr, DecidableEq

/-- The realtime INSERT handler: on lookup failure append the raw
`payload.new`; on success append `{...payload.new, sender_user: senderData || undefined}`. -/
def onRealtimeInsert (payloadNew : Message) (lookup : SenderLookup)
    (messages : List Message) : List Message :=
  match lookup with
  | .fail => messages ++ [payloadNew]
  | .ok senderData => messages ++ [{ payloadNew with sender_user := senderData }]

/-! ## Toast notifier (NotificationProvider + Toast component)

`addNotification` appends an entry with a fresh id; each mounted `Toast`
arms `setTimeout(() => onDismiss(id), duration)`, so the entry's timer
fires `duration` after the mount that started it; `removeNotification(id)`
filters the queue by id.  Time is discrete; each `tick` advances the clock
one unit and runs every timer whose deadline has been reached (a timer's
callback removes by id, and unmounting an entry clears its timer). -/

inductive Severity where
  | success
  | error
  | info
  | warning
  deriving Repr, DecidableEq

/-- A queued `NotificationMessage` plus the time its `Toast` timer was
started. -/
structure ToastEntry where
  id : String
  message : String
  type : Severity
  duration : Nat
  start : Nat
  deriving Repr, DecidableEq

structure ToastState where
  queue : List ToastEntry
  now : Nat
  deriving Repr, DecidableEq

def initToastState : ToastState := { queue := [], now := 0 }

/-- `addNotification(message, type, duration)`: append with the freshly
generated id, timer starting now. -/
def addNotification (id message : String) (type : Severity) (duration : Nat)
    (s : ToastState) : ToastState :=
  { s with queue := s.queue ++ [{ id := id, message := message, type := type,
                                  duration := duration, start := s.now }] }

/-- `removeNotification(id)` (also the `onDismiss` passed to each toast):
`prev.filter(n => n.id !== id)`. -/
def removeNotification (id : String) (s : ToastState) : ToastState :=
  { s with queue := s.queue.filter (fun e => e.id ≠ id) }

/-- An entry's timer has reached its deadline at time `t`. -/
def timerDue (t : Nat) (e : ToastEntry) : Bool :=
  e.start + e.duration ≤ t

/-- Advance the clock one unit; every due timer fires, and each firing
callback is `onDismiss(id)`, i.e. removal by that entry's id. -/
def toastTick (s : ToastState) : ToastState :=
  let t := s.now + 1
  let due := s.queue.filter (timerDue t)
  { queue := s.queue.filter (fun e => !(due.any (fun d => d.id = e.id))),
    now := t }

/-- Iterated clock advance. -/
def toastTicks : Nat → ToastState → ToastState
  | 0, s => s
  | k + 1, s => toastTicks k (toastTick s)

/-! ## Theorems -/

/-- C2: for every `signOut` call, whether the remote `auth.signOut()`
resolves cleanly, resolves with an error, or throws, the store's
`session` and `user` fields are both null when the call returns. -/
theorem signOut_clears_session_and_user (o : SignOutOutcome) (s : AuthState) :
    (signOut o s).session = none ∧ (signOut o s).user = none := by
  cases o <;> simp [signOut, signOutBegin, signOutFinish]

/-- C7: every realtime message-creation event appends exactly one record
at the tail of the message list — the hydrated record when the secondary
sender lookup succeeds, the raw payload record when it fails — so no
received event is dropped. -/
theorem realtime_insert_never_drops (payloadNew : Message)
    (d : Option SenderProfile) (messages : List Message) :
    onRealtimeInsert payloadNew .fail messages = messages ++ [payloadNew] ∧
    onRealtimeInsert payloadNew (.ok d) messages
      = messages ++ [{ payloadNew with sender_user := d }] := by
  constructor <;> rfl

/-- C10: the anonymity flag placed in the sign-up metadata is `false` for
every non-research-lead sign-up, whatever `is_anonymous` argument was
supplied; only a research-lead sign-up can send `is_anonymous = true`. -/
theorem signup_metadata_anonymity (p : SignUpParams) :
    (p.role ≠ UserRole.researchLead → (signUpMetadata p).is_anonymous = false) ∧
    ((signUpMetadata p).is_anonymous = true → p.role = UserRole.researchLead) := by
  constructor
  · intro h
    cases hr : p.role
    · exact absurd hr h
    · simp [signUpMetadata, hr]
    · simp [signUpMetadata, hr]
  · intro h
    by_contra hne
    cases hr : p.role
    · exact hne hr
    · simp [signUpMetadata, hr] at h
    · simp [signUpMetadata, hr] at h

/-- Closed instance of C10's theorem at a concrete contributor sign-up
with `is_anonymous = true` requested. -/
theorem signup_metadata_anonymity_witness :
    (signUpMetadata { email := "a@aau.edu.et", name := "A", institution := "AAU",
                      role := UserRole.contributor, is_anonymous := some true }).is_anonymous
      = false :=
  (signup_metadata_anonymity _).1 (by decide)

/-- C8: `updateUserProfile` replaces the cached profile with exactly the
row the server returned when the update succeeds, and on failure leaves
the cached profile at its pre-call value and returns the error to the
caller. -/
theorem updateUserProfile_success_and_frame (row : UserProfile)
    (d : Option UserProfile) (s : AuthState) (h : s.user.isSome) :
    (updateUserProfile { data := some row, error := false } s).1.user = some row ∧
    (updateUserProfile { data := d, error := true } s).1.user = s.user ∧
    (updateUserProfile { data := d, error := true } s).2.2 = true := by
  cases hu : s.user
  · rw [hu] at h; exact absurd h (by simp)
  · refine ⟨?_, ?_, ?_⟩ <;> simp [updateUserProfile, hu]

/-- Closed instance of C8's theorem at a concrete cached profile. -/
theorem updateUserProfile_success_and_frame_witness :
    (updateUserProfile
        { data := some { id := "u1", name := "N", institution := "AAU",
                         role := UserRole.contributor, is_anonymous := false },
          error := false }
        { session := none,
          user := some { id := "u1", name := "Old", institution := "AAU",
                         role := UserRole.contributor, is_anonymous := false },
          loading := false, isSigningOut := false }).1.user
      = some { id := "u1", name := "N", institution := "AAU",
               role := UserRole.contributor, is_anonymous := false } :=
  (updateUserProfile_success_and_frame _ none _ (by decide)).1

/-- C6: when the email's domain fails the allow-list check, `signUp`
returns a domain error at once — the auth collaborator is not invoked and
the store (in particular its session) is untouched — while an empty or
wildcard allow-list accepts every domain. -/
theorem signup_domain_allowlist (domains : List String) (p : SignUpParams)
    (reply : AuthSignUpReply) (s : AuthState)
    (h : validateUniversityEmail domains p.email = false) :
    signUp domains p reply s = (s, { invokedWith := none, error := true }) ∧
    (∀ email, validateUniversityEmail [] email = true ∧
              validateUniversityEmail [""] email = true) :=
  ⟨by simp [signUp, h], fun _ => ⟨rfl, rfl⟩⟩

/-- Closed instance of C6's theorem: `student@unapproved.com` against the
allow-list `["aau.edu.et"]` is rejected without invoking the collaborator
and without creating a session. -/
theorem signup_domain_allowlist_witness :
    signUp ["aau.edu.et"]
        { email := "student@unapproved.com", name := "S", institution := "U",
          role := UserRole.contributor, is_anonymous := none }
        (.ok (some "u") (some { userId := "u" })) initAuthState
      = (initAuthState, { invokedWith := none, error := true }) :=
  (signup_domain_allowlist _ _ _ _ (by decide)).1

/-- C3 counterexample: a page-1 fetch with `pageSize = 2` that returns
exactly 2 rows together with a server total `count = 2` leaves `hasMore`
false, refuting "`hasMore` is true iff the page returned exactly
`pageSize` items". -/
theorem hasMore_claim_counterexample :
    ([AppNotification.mk "a" false, AppNotification.mk "b" false].length = 2) ∧
    (fetchNotifications 1 2 true
        (.ok [AppNotification.mk "a" false, AppNotification.mk "b" false] (some 2))
        (some 0)
        { notifications := [], unreadCount := 0, isLoading := false,
          currentPage := 1, hasMore := true }).hasMore = false := by
  decide

/-- C3 amended: after a completed fetch, `hasMore` is true iff the page
returned exactly `pageSize` items AND the server-reported total count,
when present and non-zero, still exceeds the number of rows now accounted
for locally. -/
lemma countGuard_eq_true_iff (count : Option Nat) (totalFetched : Nat) :
    countGuard count totalFetched = true
      ↔ ∀ c, count = some c → 0 < c → totalFetched < c := by
  cases count with
  | none => simp [countGuard]
  | some c =>
    by_cases hc : c = 0
    · subst hc; simp [countGuard]
    · simp only [countGuard, ne_eq, hc, not_false_eq_true, if_true,
        decide_eq_true_eq, Option.some.injEq]
      constructor
      · rintro h c' rfl _; exact h
      · intro h; exact h c rfl (Nat.pos_of_ne_zero hc)

theorem hasMore_iff_full_page_and_more_remaining (pageToFetch limit : Nat)
    (data : List AppNotification) (count : Option Nat) (unreadReply : Option Nat)
    (s : NotifState) :
    (fetchNotifications pageToFetch limit true (.ok data count) unreadReply s).hasMore = true
      ↔ (data.length = limit ∧ ∀ c, count = some c → 0 < c →
           (if pageToFetch = 1 then data.length
            else s.notifications.length + (freshRows s.notifications data).length) < c) := by
  show (decide (data.length = limit)
        && countGuard count
             (if pageToFetch = 1 then data.length
              else s.notifications.length + (freshRows s.notifications data).length)) = true
      ↔ _
  rw [Bool.and_eq_true, decide_eq_true_eq, countGuard_eq_true_iff]

/-- Closed instance of C3's amended theorem: a full page of 2 rows with a
server total of 5 leaves `hasMore` true. -/
theorem hasMore_iff_witness :
    (fetchNotifications 1 2 true
        (.ok [AppNotification.mk "a" false, AppNotification.mk "b" false] (some 5))
        (some 2)
        { notifications := [], unreadCount := 0, isLoading := false,
          currentPage := 1, hasMore := false }).hasMore = true :=
  (hasMore_iff_full_page_and_more_remaining 1 2 _ _ _ _).mpr
    ⟨by decide, by intro c hc hpos; simp at hc; subst hc; decide⟩

/-- C4 counterexample: with the target item unread but the unread counter
already 0 before the call (the optimistic decrement hits the floor), a
failed `markAsRead` rolls the counter back to 1, not to its pre-call
value 0. -/
theorem markAsRead_rollback_counterexample :
    (handleMarkAsRead "a" false
        { notifications := [AppNotification.mk "a" false], unreadCount := 0,
          isLoading := false, currentPage := 1, hasMore := false }).unreadCount = 1 := by
  decide

/-- C4 amended: when `markAsRead(id)` is followed by a server failure,
the notification list (hence the target item's read flag) is restored
exactly, and the unread counter is restored exactly provided the pre-call
counter was positive whenever the target item was present and unread
(i.e. the optimistic decrement did not hit the floor at zero). -/
theorem markAsRead_rollback_exact (notificationId : String) (s : NotifState)
    (h : previouslyUnread notificationId s.notifications = true → 0 < s.unreadCount) :
    (handleMarkAsRead notificationId false s).notifications = s.notifications ∧
    (handleMarkAsRead notificationId false s).unreadCount = s.unreadCount := by
  cases hp : previouslyUnread notificationId s.notifications
  · simp [handleMarkAsRead, markAsReadOptimistic, hp]
  · have := h hp
    simp [handleMarkAsRead, markAsReadOptimistic, hp]
    omega

/-- Closed instance of C4's amended theorem at a consistent pre-call
state (one unread item, counter 1). -/
theorem markAsRead_rollback_exact_witness :
    (handleMarkAsRead "a" false
        { notifications := [AppNotification.mk "a" false], unreadCount := 1,
          isLoading := false, currentPage := 1, hasMore := false }).unreadCount = 1 :=
  (markAsRead_rollback_exact "a" _ (fun _ => by decide)).2

lemma freshRows_sub_nodup (prev data : List AppNotification)
    (hd : (data.map AppNotification.id).Nodup) :
    ((freshRows prev data).map AppNotification.id).Nodup :=
  ((List.filter_sublist data).map AppNotification.id).nodup hd

lemma freshRows_ids_disjoint (prev data : List AppNotification) :
    List.Disjoint (prev.map AppNotification.id)
      ((freshRows prev data).map AppNotification.id) := by
  intro a ha hb
  rcases List.mem_map.mp ha with ⟨m, hm, rfl⟩
  rcases List.mem_map.mp hb with ⟨n, hn, hid⟩
  have hq := (List.mem_filter.mp hn).2
  simp only [Bool.not_eq_true', List.any_eq_false, decide_eq_false_iff_not] at hq
  exact hq m hm (decide_eq_true hid.symm)

/-- C5: `fetchPage(1)` replaces the in-memory list with exactly the
fetched page; `fetchPage(n)` for `n > 1` appends only the fetched rows
whose ids are not already present, so when the stored list and the
fetched page each carry pairwise-distinct ids (two overlapping fetches
may still return the same row twice), the merged list never contains two
notifications with the same id. -/
theorem fetch_replace_and_dedup (page limit : Nat) (data : List AppNotification)
    (count : Option Nat) (unreadReply : Option Nat) (s : NotifState) :
    (fetchNotifications 1 limit true (.ok data count) unreadReply s).notifications = data ∧
    (2 ≤ page →
      (fetchNotifications page limit true (.ok data count) unreadReply s).notifications
        = s.notifications ++ freshRows s.notifications data ∧
      ((s.notifications.map AppNotification.id).Nodup →
       (data.map AppNotification.id).Nodup →
       ((fetchNotifications page limit true (.ok data count) unreadReply s).notifications.map
          AppNotification.id).Nodup)) := by
  constructor
  · simp [fetchNotifications]
  · intro hpage
    have hne : ¬ page = 1 := by omega
    have hrw : (fetchNotifications page limit true (.ok data count) unreadReply s).notifications
        = s.notifications ++ freshRows s.notifications data := by
      simp [fetchNotifications, hne]
    refine ⟨hrw, ?_⟩
    intro hs hd
    rw [hrw, List.map_append]
    exact List.nodup_append.mpr
      ⟨hs, freshRows_sub_nodup s.notifications data hd,
       freshRows_ids_disjoint s.notifications data⟩

/-- Closed instance of C5's theorem: merging page 2 whose rows overlap
the stored list keeps the ids duplicate-free. -/
theorem fetch_replace_and_dedup_witness :
    ((fetchNotifications 2 2 true
        (.ok [AppNotification.mk "a" false, AppNotification.mk "b" false] none) none
        { notifications := [AppNotification.mk "a" true], unreadCount := 0,
          isLoading := false, currentPage := 1, hasMore := true }).notifications.map
      AppNotification.id).Nodup :=
  ((fetch_replace_and_dedup 2 2 _ none none _).2 (by decide)).2 (by decide) (by decide)

/-- C1 counterexample: sign in, start a sign-out, let the `signOut` call
complete (its finally block resets `isSigningOutRef`), then deliver a
stale signed-in event — all before the matching signed-out event is
observed.  The stale event is processed normally and leaves `session`
non-null inside the claimed window. -/
theorem signOut_window_counterexample :
    signOutPending
        [AuthStep.event .signedIn (some { userId := "u1" }) none,
         AuthStep.beginSignOut, AuthStep.finishSignOut .ok,
         AuthStep.event .signedIn (some { userId := "u2" }) none] = true ∧
    (runAuth initAuthState
        [AuthStep.event .signedIn (some { userId := "u1" }) none,
         AuthStep.beginSignOut, AuthStep.finishSignOut .ok,
         AuthStep.event .signedIn (some { userId := "u2" }) none]).session
      ≠ none := by
  decide

/-- C1 amended: a signed-in event carrying a non-null session that
arrives while the `isSigningOut` flag is set is discarded outright (the
store state is unchanged, so `session` cannot become non-null through
it); the flag — and with it the discard window — is cleared by the first
observed signed-out event or by the completion of `signOut` itself
(whose every branch also leaves `session` null), whichever comes
first. -/
theorem signedIn_discarded_while_signing_out (s : AuthState) (sess : Session)
    (profile : Option UserProfile) (h : s.isSigningOut = true) :
    onAuthStateChange .signedIn (some sess) profile s = s ∧
    (∀ ns p2, (onAuthStateChange .signedOut ns p2 s).isSigningOut = false) ∧
    (∀ o, (signOutFinish o s).isSigningOut = false ∧ (signOutFinish o s).session = none) := by
  refine ⟨by simp [onAuthStateChange, h], ?_, ?_⟩
  · intro ns p2
    cases ns <;> simp [onAuthStateChange, h]
  · intro o
    cases o <;> simp [signOutFinish]

/-- Closed instance of C1's amended theorem: a stale signed-in event is
discarded in a concrete mid-sign-out state. -/
theorem signedIn_discarded_while_signing_out_witness :
    onAuthStateChange .signedIn (some { userId := "v" }) none
        { session := some { userId := "u" }, user := none,
          loading := true, isSigningOut := true }
      = { session := some { userId := "u" }, user := none,
          loading := true, isSigningOut := true } :=
  (signedIn_discarded_while_signing_out _ _ none (by decide)).1

lemma toastEntry_id_inj {l : List ToastEntry}
    (h : (l.map ToastEntry.id).Nodup) {d e : ToastEntry}
    (hd : d ∈ l) (he : e ∈ l) (hid : d.id = e.id) : d = e := by
  by_contra hne
  rw [List.Nodup, List.pairwise_map] at h
  have hsym : Symmetric (fun a b : ToastEntry => a.id ≠ b.id) :=
    fun _ _ hab q => hab q.symm
  exact h.forall hsym hd he hne hid

lemma mem_toastTick_iff {s : ToastState} (hnd : (s.queue.map ToastEntry.id).Nodup)
    {e : ToastEntry} (he : e ∈ s.queue) :
    e ∈ (toastTick s).queue ↔ s.now + 1 < e.start + e.duration := by
  show e ∈ s.queue.filter
        (fun x => !((s.queue.filter (timerDue (s.now + 1))).any (fun d => d.id = x.id)))
      ↔ _
  rw [List.mem_filter]
  constructor
  · rintro ⟨-, hflag⟩
    by_contra hlate
    have hdue : e ∈ s.queue.filter (timerDue (s.now + 1)) :=
      List.mem_filter.mpr ⟨he, by simp only [timerDue, decide_eq_true_eq]; omega⟩
    rw [Bool.not_eq_true', List.any_eq_false] at hflag
    exact hflag e hdue (decide_eq_true rfl)
  · intro hlive
    refine ⟨he, ?_⟩
    rw [Bool.not_eq_true', List.any_eq_false]
    intro d hdm hdec
    have hid : d.id = e.id := of_decide_eq_true hdec
    rcases List.mem_filter.mp hdm with ⟨hdq, hdue⟩
    have hde : d = e := toastEntry_id_inj hnd hdq he hid
    subst hde
    simp only [timerDue, decide_eq_true_eq] at hdue
    omega

lemma toastTick_queue_sub {s : ToastState} {e : ToastEntry}
    (h : e ∈ (toastTick s).queue) : e ∈ s.queue := by
  unfold toastTick at h
  exact (List.mem_filter.mp h).1

lemma toastTick_nodup {s : ToastState} (hnd : (s.queue.map ToastEntry.id).Nodup) :
    ((toastTick s).queue.map ToastEntry.id).Nodup := by
  unfold toastTick
  exact ((List.filter_sublist s.queue).map ToastEntry.id).nodup hnd

lemma toastTick_now (s : ToastState) : (toastTick s).now = s.now + 1 := rfl

lemma mem_toastTicks_queue_sub {e : ToastEntry} :
    ∀ (k : Nat) (s : ToastState), e ∈ (toastTicks k s).queue → e ∈ s.queue := by
  intro k
  induction k with
  | zero => intro s h; exact h
  | succ n ih => intro s h; exact toastTick_queue_sub (ih (toastTick s) h)

lemma mem_toastTicks_succ_iff {e : ToastEntry} :
    ∀ (k : Nat) (s : ToastState), (s.queue.map ToastEntry.id).Nodup → e ∈ s.queue →
      (e ∈ (toastTicks (k + 1) s).queue ↔ s.now + (k + 1) < e.start + e.duration) := by
  intro k
  induction k with
  | zero =>
    intro s hnd he
    simpa using mem_toastTick_iff hnd he
  | succ n ih =>
    intro s hnd he
    by_cases hsurv : s.now + 1 < e.start + e.duration
    · have he' : e ∈ (toastTick s).queue := (mem_toastTick_iff hnd he).mpr hsurv
      have hstep := ih (toastTick s) (toastTick_nodup hnd) he'
      rw [toastTick_now] at hstep
      show e ∈ (toastTicks (n + 1) (toastTick s)).queue ↔ _
      rw [hstep]
      omega
    · constructor
      · intro hmem
        have hin : e ∈ (toastTick s).queue :=
          mem_toastTicks_queue_sub (n + 1) (toastTick s) hmem
        exact absurd ((mem_toastTick_iff hnd he).mp hin) hsurv
      · intro hbound
        omega

/-- C9: starting from a queue whose (freshly generated) ids are distinct,
an entry present in the queue survives every clock advance that stays
strictly before its timer's deadline `start + ttl` and is gone from every
state at or past that deadline — i.e. it auto-removes exactly when its
ttl elapses, measured from when its timer started, and never earlier —
while an explicit dismiss removes exactly the entries bearing the
dismissed id, and adding another toast removes nothing. -/
theorem toast_ttl_exact (s : ToastState) (e : ToastEntry) (k : Nat)
    (hnd : (s.queue.map ToastEntry.id).Nodup) (he : e ∈ s.queue) (hk : 1 ≤ k) :
    (e ∈ (toastTicks k s).queue ↔ s.now + k < e.start + e.duration) ∧
    (∀ i, e ∈ (removeNotification i s).queue ↔ e.id ≠ i) ∧
    (∀ id msg ty dur, e ∈ (addNotification id msg ty dur s).queue) := by
  refine ⟨?_, ?_, ?_⟩
  · obtain ⟨m, rfl⟩ : ∃ m, k = m + 1 := ⟨k - 1, by omega⟩
    exact mem_toastTicks_succ_iff m s hnd he
  · intro i
    unfold removeNotification
    simp [List.mem_filter, he]
  · intro id msg ty dur
    unfold addNotification
    simp [he]

/-- Closed instance of C9's theorem: a toast armed at time 0 with a ttl
of 2 is still queued after one clock unit. -/
theorem toast_ttl_exact_witness :
    (ToastEntry.mk "x" "saved" Severity.info 2 0)
      ∈ (toastTicks 1 { queue := [ToastEntry.mk "x" "saved" Severity.info 2 0],
                        now := 0 }).queue :=
  (toast_ttl_exact _ _ 1 (by decide) (by decide) (by decide)).1.mpr (by decide)

end ResearchCollab
